import Mathlib

/-!
Verification of the cw20_reflection contracts: a shallow embedding of the
reflection token (`contracts/qtum_reflection_token/src/contract.rs`) and the
treasury (`contracts/qtum_treasury/src/contract.rs`), with theorems about the
tax computation, the pair-aware transfer ledger, the liquify throttle, the
treasury liquify orchestrator and the pair-binding validators.

Modelling conventions:
* `Uint128` amounts are `Nat` together with the explicit bound `U128 = 2^128`;
  the panicking/checked arithmetic of `cosmwasm_std::Uint128` is modelled by
  `addU` / `subU` / `mulDec`, which return `Except Err _` (a panic and a
  returned error both abort the CosmWasm transaction, so both are `.error`).
* `cosmwasm_std::Decimal` is a fixed-point number `atomics / 10^18`; the
  `Uint128 * Decimal` multiplication is `floor (u * atomics / 10^18)`.
* Storage `Item`s/`Map`s become fields of a state structure; `Map` lookups are
  `String → Option _` functions.  `may_load(..)?.unwrap_or_default()` is
  `(· ).getD default`.  Items that are written by every `instantiate` (admin,
  the four rates) are total fields.
* `deps.api.addr_validate` is modelled as the identity on the abstract
  address type `String` (address well-formedness is outside the embedding).
* External queries (AMM pair info, swap simulation, token balance/rates) are
  passed in as explicit query functions, mirroring `deps.querier`.
-/

namespace Cw20Reflection

/-- `Uint128::MAX + 1`: amounts live in `[0, 2^128)`. -/
def U128 : Nat := 2 ^ 128

/-- `Decimal::DECIMAL_FRACTIONAL = 10^18`. -/
def FRAC : Nat := 10 ^ 18

/-- `cosmwasm_std::Decimal`: fixed-point value `atomics / 10^18`. -/
structure Dec where
  atomics : Nat
deriving DecidableEq

/-- `Decimal::zero()` -/
def Dec.zero : Dec := ⟨0⟩

/-- `Decimal::one()` -/
def Dec.one : Dec := ⟨FRAC⟩

/-- Errors: each constructor is one `ContractError`/`StdError` return or a
`Uint128` arithmetic panic (both abort the transaction identically). -/
inductive Err
  | invalidZeroAmount
  | overflow
  | noAllowance
  | notAdmin
  | notContract
  | invalidMsg
  | initialSupplyGreaterThanCap
  | assetInfos1DoNotMatch
  | tokenShouldBeCw20
  | assetInfos0NotValid
  | assetInfos1NotValid
  | queryFailed
  | configMissing
deriving DecidableEq

/-- `Uint128 + Uint128` (panics on overflow). -/
def addU (a b : Nat) : Except Err Nat :=
  if a + b < U128 then .ok (a + b) else .error .overflow

/-- `Uint128::checked_sub` / `Uint128 - Uint128` (both abort on underflow). -/
def subU (a b : Nat) : Except Err Nat :=
  if b ≤ a then .ok (a - b) else .error .overflow

/-- `Uint128::mul(Decimal)`: `floor (u * atomics / 10^18)`, panicking if the
result does not fit in 128 bits. -/
def mulDec (u : Nat) (d : Dec) : Except Err Nat :=
  if u * d.atomics / FRAC < U128 then .ok (u * d.atomics / FRAC) else .error .overflow

/-- Point update of a `cw_storage_plus::Map` modelled as a function. -/
def setKey (m : String → Option Nat) (k : String) (v : Nat) : String → Option Nat :=
  fun a => if a = k then some v else m a

/-- `QueryTaxResponse` (the token's tax-breakdown response).  Note the source
struct has no `burn_amount` field: `query_tax` computes `burn_amount`
internally and only uses it for `liquidity_amount`. -/
structure QueryTaxResponse where
  taxed_amount : Nat
  after_tax : Nat
  reflection_amount : Nat
  liquidity_amount : Nat
deriving DecidableEq

/-- Storage of the reflection token contract
(`qtum_reflection_token/src/contract.rs` lines 34-42) plus the two
`cw20_base` maps it mutates (`BALANCES`, allowances). -/
structure TokenState where
  admin : String
  tax_rate : Dec
  reflection_rate : Dec
  burn_rate : Dec
  max_transfer_supply_rate : Dec
  treasury : Option String
  last_liquify : Option Nat
  pairlist : String → Option Bool
  balances : String → Option Nat
  allowances : String → String → Option Nat

/-- The `is_pair` classification computed (inline) at the top of each of the
four transfer entry points: `to_pair || from_pair`, missing registry entries
defaulting to `false`. -/
def isPairFlag (st : TokenState) (sender recipient : String) : Bool :=
  (st.pairlist recipient).getD false || (st.pairlist sender).getD false

/-- `query_tax` (token contract, lines 524-541): the tax breakdown for
`amount` under the stored rates.  The rates are always saved by
`instantiate`, so the `may_load(..)?.unwrap()` reads are total fields here. -/
def query_tax (st : TokenState) (amount : Nat) : Except Err QueryTaxResponse := do
  let taxed_amount ← mulDec amount st.tax_rate
  let after_tax ← subU amount taxed_amount
  let reflection_amount ← mulDec taxed_amount st.reflection_rate
  let burn_amount ← mulDec taxed_amount st.burn_rate
  let liquidity_amount ← subU (← subU taxed_amount reflection_amount) burn_amount
  pure { taxed_amount, after_tax, reflection_amount, liquidity_amount }

/-- Messages appended to the `Response` by the token's transfer entry points:
the self-addressed `ExecuteMsg::TransferEvent` and (for `send`/`send_from`)
the `Cw20ReceiveMsg` hook forwarded to the receiving contract. -/
inductive TokenMsg
  | transferEvent (src dst : String) (amount : Nat)
  | receiveHook (contract sender : String) (amount : Nat) (payload : String)
deriving DecidableEq

/-- `cw20_base::allowances::deduct_allowance`, an external collaborator per
the spec (allowance bookkeeping "assumed correct and reused as-is"): errors
when no allowance exists, otherwise debits it with a checked subtraction.
Allowance expiry is not modelled (no claim depends on it). -/
def deduct_allowance (st : TokenState) (owner spender : String) (amount : Nat) :
    Except Err TokenState :=
  match st.allowances owner spender with
  | none => .error .noAllowance
  | some a => do
      let a' ← subU a amount
      pure { st with allowances := fun o s =>
              if o = owner then (if s = spender then some a' else st.allowances o s)
              else st.allowances o s }

/-- `execute_transfer` (token contract, lines 119-190): zero-amount check,
`is_pair` classification, tax query, debit of the full `amount` from the
sender, credit of `after_tax` (taxed) or `amount` (untaxed) to the recipient,
and — when taxed — credit of `taxed_amount` to the treasury plus the
self-addressed `TransferEvent` message. -/
def execute_transfer (st : TokenState) (sender recipient : String) (amount : Nat) :
    Except Err (TokenState × List TokenMsg) := do
  if amount = 0 then throw .invalidZeroAmount
  let is_pair := isPairFlag st sender recipient
  let treasury := st.treasury.getD ""
  let taxes ← query_tax st amount
  let outgoing_amount := if is_pair then taxes.after_tax else amount
  let sbal ← subU ((st.balances sender).getD 0) amount
  let st := { st with balances := setKey st.balances sender sbal }
  let rbal ← addU ((st.balances recipient).getD 0) outgoing_amount
  let st := { st with balances := setKey st.balances recipient rbal }
  if is_pair then
    let tbal ← addU ((st.balances treasury).getD 0) taxes.taxed_amount
    let st := { st with balances := setKey st.balances treasury tbal }
    pure (st, [.transferEvent sender treasury taxes.taxed_amount])
  else
    pure (st, [])

/-- `execute_send` (lines 192-269): identical tax/debit/credit logic to
`execute_transfer`, with the `Cw20ReceiveMsg` hook (carrying the post-tax
`outgoing_amount`) appended after the optional `TransferEvent`. -/
def execute_send (st : TokenState) (sender contract : String) (amount : Nat)
    (payload : String) : Except Err (TokenState × List TokenMsg) := do
  if amount = 0 then throw .invalidZeroAmount
  let is_pair := isPairFlag st sender contract
  let treasury := st.treasury.getD ""
  let taxes ← query_tax st amount
  let outgoing_amount := if is_pair then taxes.after_tax else amount
  let sbal ← subU ((st.balances sender).getD 0) amount
  let st := { st with balances := setKey st.balances sender sbal }
  let rbal ← addU ((st.balances contract).getD 0) outgoing_amount
  let st := { st with balances := setKey st.balances contract rbal }
  if is_pair then
    let tbal ← addU ((st.balances treasury).getD 0) taxes.taxed_amount
    let st := { st with balances := setKey st.balances treasury tbal }
    pure (st, [.transferEvent sender treasury taxes.taxed_amount,
               .receiveHook contract sender outgoing_amount payload])
  else
    pure (st, [.receiveHook contract sender outgoing_amount payload])

/-- `execute_transfer_from` (lines 271-340): note the source performs NO
zero-amount check here; it deducts the allowance, then debits the owner and
credits the recipient exactly as `execute_transfer` does. -/
def execute_transfer_from (st : TokenState) (sender owner recipient : String)
    (amount : Nat) : Except Err (TokenState × List TokenMsg) := do
  -- the source loads `from_pair` for `info.sender` (the spender), not the owner
  let is_pair := isPairFlag st sender recipient
  let treasury := st.treasury.getD ""
  let taxes ← query_tax st amount
  let outgoing_amount := if is_pair then taxes.after_tax else amount
  let st ← deduct_allowance st owner sender amount
  let obal ← subU ((st.balances owner).getD 0) amount
  let st := { st with balances := setKey st.balances owner obal }
  let rbal ← addU ((st.balances recipient).getD 0) outgoing_amount
  let st := { st with balances := setKey st.balances recipient rbal }
  if is_pair then
    let tbal ← addU ((st.balances treasury).getD 0) taxes.taxed_amount
    let st := { st with balances := setKey st.balances treasury tbal }
    pure (st, [.transferEvent sender treasury taxes.taxed_amount])
  else
    pure (st, [])

/-- `execute_send_from` (lines 342-426): like `execute_transfer_from`
(again, NO zero-amount check) with the `Cw20ReceiveMsg` hook appended. -/
def execute_send_from (st : TokenState) (sender owner contract : String)
    (amount : Nat) (payload : String) : Except Err (TokenState × List TokenMsg) := do
  -- the source loads `from_pair` for `info.sender` (the spender), not the owner
  let is_pair := isPairFlag st sender contract
  let treasury := st.treasury.getD ""
  let taxes ← query_tax st amount
  let outgoing_amount := if is_pair then taxes.after_tax else amount
  let st ← deduct_allowance st owner sender amount
  let obal ← subU ((st.balances owner).getD 0) amount
  let st := { st with balances := setKey st.balances owner obal }
  let rbal ← addU ((st.balances contract).getD 0) outgoing_amount
  let st := { st with balances := setKey st.balances contract rbal }
  if is_pair then
    let tbal ← addU ((st.balances treasury).getD 0) taxes.taxed_amount
    let st := { st with balances := setKey st.balances treasury tbal }
    pure (st, [.transferEvent sender treasury taxes.taxed_amount,
               .receiveHook contract sender outgoing_amount payload])
  else
    pure (st, [.receiveHook contract sender outgoing_amount payload])

/-- The message emitted by the liquify throttle: the `TreasuryExecuteMsg::Liquify`
call addressed to the treasury contract. -/
inductive TreasuryMsg
  | liquify (treasury : String)
deriving DecidableEq

/-- `generate_transfer_event` (token contract, lines 618-652): the liquify
throttle.  Only the contract itself may call it; it fires a `Liquify` message
to the treasury exactly when `now > last_liquify + 1` second, recording `now`
as the new `last_liquify` in that case.  The `_src`/`_dst`/`_amount`
arguments only feed the response attributes. -/
def generate_transfer_event (st : TokenState) (sender contractAddr : String)
    (nowSeconds : Nat) (_src _dst : String) (_amount : Nat) :
    Except Err (TokenState × List TreasuryMsg) := do
  let last := st.last_liquify.getD 0
  if sender ≠ contractAddr then throw .notContract
  if nowSeconds > last + 1 then
    let st := { st with last_liquify := some nowSeconds }
    let treasury := st.treasury.getD ""
    pure (st, [.liquify treasury])
  else
    pure (st, [])

/-- The parts of the token `InstantiateMsg` the embedding needs.
`metadata_valid` stands for `msg.validate()` — the name/symbol/decimals
validation defined in the token's `msg.rs`, which only concerns token
metadata.  `mint_cap` is `msg.get_cap()`. -/
structure InstMsg where
  metadata_valid : Bool
  initial_balances : List (String × Nat)
  mint_cap : Option Nat

/-- `cw20_base::contract::create_accounts` (external collaborator): stores
each initial balance and returns the accumulated total supply. -/
def create_accounts (bal : String → Option Nat) (accounts : List (String × Nat)) :
    (String → Option Nat) × Nat :=
  accounts.foldl (fun acc p => (setKey acc.1 p.1 p.2, acc.2 + p.2)) (bal, 0)

/-- `instantiate` (token contract, lines 44-115): saves the sender as admin,
zeroes the three tax rates, sets `max_transfer_supply_rate = 1`, registers
the SENDER ITSELF in the pair registry with flag `true` (line 61), creates
the initial accounts and enforces the mint cap. -/
def instantiate (sender : String) (msg : InstMsg) : Except Err TokenState := do
  if msg.metadata_valid = false then throw .invalidMsg
  let st : TokenState := {
    admin := sender
    tax_rate := Dec.zero, reflection_rate := Dec.zero, burn_rate := Dec.zero
    max_transfer_supply_rate := Dec.one
    treasury := none, last_liquify := none
    pairlist := fun a => if a = sender then some true else none
    balances := fun _ => none
    allowances := fun _ _ => none }
  let created := create_accounts st.balances msg.initial_balances
  let st := { st with balances := created.1 }
  match msg.mint_cap with
  | some cap => if created.2 > cap then throw .initialSupplyGreaterThanCap else pure ()
  | none => pure ()
  pure st

/-! ### Treasury contract (`qtum_treasury/src/contract.rs`) -/

/-- `dojoswap::asset::AssetInfo`. -/
inductive AssetInfo
  | token (contract_addr : String)
  | nativeToken (denom : String)
deriving DecidableEq

/-- `dojoswap::asset::PairInfo` — the AMM's authoritative answer to the
`Pair {}` query: its asset ordering and its liquidity-share token. -/
structure PairInfo where
  asset_infos : AssetInfo × AssetInfo
  liquidity_token : String
deriving DecidableEq

/-- Storage of the treasury contract (lines 28-37).  `admin`, `token`,
`router` are written by every `instantiate`, hence total; `min_liquify_amt`
is read with `unwrap_or(zero)` and written at instantiation, hence total. -/
structure TreasuryState where
  admin : String
  token : String
  router : String
  min_liquify_amt : Nat
  liquidity_token : Option String
  liquidity_pair_contract : Option String
  reflection_pair_contract : Option String
  liquidity_pair : Option (AssetInfo × AssetInfo)
  reflection_pair : Option (AssetInfo × AssetInfo)
deriving DecidableEq

/-- `.unwrap()` on a `may_load` result: a missing item aborts (panic). -/
def req {α : Type} (o : Option α) : Except Err α :=
  match o with
  | some a => .ok a
  | none => .error .configMissing

/-- `ensure_admin` (treasury contract, lines 488-497). -/
def ensure_admin (st : TreasuryState) (sender : String) : Except Err Unit :=
  if sender ≠ st.admin then .error .notAdmin else .ok ()

/-- `response.asset_infos.iter().find(|info| info.equal(&a)).is_some()`:
order-independent membership of `a` in the AMM's reported asset pair. -/
def assetMem (infos : AssetInfo × AssetInfo) (a : AssetInfo) : Bool :=
  decide (infos.1 = a) || decide (infos.2 = a)

/-- The `WasmMsg`s emitted by `liquify_treasury`, with the fields the claims
are about (target contracts, amounts, asset infos, attached funds). -/
inductive WMsg
  | increaseAllowance (tokenContract spender : String) (amount : Nat)
  | swapViaSend (tokenContract pairContract : String) (amount : Nat)
  | provideLiquidity (pairContract : String)
      (amount0 : Nat) (info0 : AssetInfo) (amount1 : Nat) (info1 : AssetInfo)
      (funds : List (Nat × String))
  | routerSwap (tokenContract router : String) (amount : Nat)
      (operations : List (AssetInfo × AssetInfo))
  | burn (tokenContract : String) (amount : Nat)
deriving DecidableEq

/-- The external queries `liquify_treasury` performs through `deps.querier`:
the treasury's token balance, the token's current rate quadruple
(`QueryRates`), and the AMM swap simulation (pair contract, offer amount,
offer asset ↦ `SimulationResponse.return_amount`). -/
structure LQuerier where
  balance : Nat
  tax_rate : Dec
  reflection_rate : Dec
  burn_rate : Dec
  transfer_rate : Dec
  simulateReturn : String → Nat → AssetInfo → Nat

/-- `liquify_treasury` (treasury contract, lines 123-303): loads the bound
pairs (panicking if unbound), short-circuits below `min_liquify_amt`,
splits the treasury balance by the token's current reflection/burn rates and
emits the liquidity leg, the reflection leg and the burn instruction.  The
source never writes storage here, so the state is returned unchanged. -/
def liquify_treasury (q : LQuerier) (st : TreasuryState) :
    Except Err (TreasuryState × List WMsg) := do
  let router := st.router
  let token := st.token
  let contract_balance := q.balance
  let liquidity_pair ← req st.liquidity_pair
  let liquidity_pair_contract ← req st.liquidity_pair_contract
  let reflection_pair ← req st.reflection_pair
  let min_liquify_amt := st.min_liquify_amt
  if contract_balance < min_liquify_amt then
    return (st, [])
  let reflect_amt ← mulDec contract_balance q.reflection_rate
  let burn_amt ← mulDec contract_balance q.burn_rate
  let liquidity_amt ← subU (← subU contract_balance reflect_amt) burn_amt
  let liqMsgs ← if liquidity_amt > 0 then do
      let swap_amount := liquidity_amt / 2
      let keep ← subU liquidity_amt swap_amount
      let simulation := q.simulateReturn liquidity_pair_contract swap_amount liquidity_pair.1
      let incAllow := WMsg.increaseAllowance token liquidity_pair_contract keep
      let swapMsg := WMsg.swapViaSend token liquidity_pair_contract swap_amount
      match reflection_pair.2 with
      | .nativeToken denom =>
          pure [incAllow, swapMsg,
            WMsg.provideLiquidity liquidity_pair_contract keep liquidity_pair.1
              simulation liquidity_pair.2 [(simulation, denom)]]
      | .token contract_addr =>
          pure [incAllow, swapMsg,
            WMsg.increaseAllowance contract_addr liquidity_pair_contract simulation,
            WMsg.provideLiquidity liquidity_pair_contract keep liquidity_pair.1
              simulation liquidity_pair.2 []]
    else pure []
  let reflMsgs := if reflect_amt > 0 then
      [WMsg.routerSwap token router reflect_amt
        [(AssetInfo.token token, reflection_pair.2), (reflection_pair.2, reflection_pair.1)]]
    else []
  let burnMsgs := if burn_amt > 0 then [WMsg.burn token burn_amt] else []
  pure (st, liqMsgs ++ reflMsgs ++ burnMsgs)

/-- `set_liquidity_pair` (treasury contract, lines 332-388): admin-gated;
saves the binding FIRST, then cross-checks the quote asset against an
already-bound reflection pair, queries the AMM's `PairInfo`, rejects a
native-coin REPORTED first asset, records the liquidity-share token and
requires both supplied assets to appear in the reported ordering. -/
def set_liquidity_pair (pairQuery : String → Option PairInfo) (st : TreasuryState)
    (sender : String) (asset_infos : AssetInfo × AssetInfo) (pair_contract : String) :
    Except Err TreasuryState := do
  ensure_admin st sender
  let reflection_pair := st.reflection_pair
  let st := { st with liquidity_pair := some asset_infos,
                      liquidity_pair_contract := some pair_contract }
  match reflection_pair with
  | none => pure ()
  | some r => if r.2 ≠ asset_infos.2 then throw .assetInfos1DoNotMatch else pure ()
  let response ← match pairQuery pair_contract with
    | some r => pure r
    | none => throw .queryFailed
  match response.asset_infos.1 with
  | .token _ => pure ()
  | .nativeToken _ => throw .tokenShouldBeCw20
  let st := { st with liquidity_token := some response.liquidity_token }
  if assetMem response.asset_infos asset_infos.1 = false then throw .assetInfos0NotValid
  if assetMem response.asset_infos asset_infos.2 = false then throw .assetInfos1NotValid
  pure st

/-- `set_reflection_pair` (treasury contract, lines 393-436): admin-gated;
saves the binding FIRST, then cross-checks the quote asset against an
already-bound liquidity pair, queries the AMM's `PairInfo` and requires both
supplied assets to appear in the reported ordering. -/
def set_reflection_pair (pairQuery : String → Option PairInfo) (st : TreasuryState)
    (sender : String) (asset_infos : AssetInfo × AssetInfo) (pair_contract : String) :
    Except Err TreasuryState := do
  ensure_admin st sender
  let liquidity_pair := st.liquidity_pair
  let st := { st with reflection_pair := some asset_infos,
                      reflection_pair_contract := some pair_contract }
  match liquidity_pair with
  | none => pure ()
  | some l => if l.2 ≠ asset_infos.2 then throw .assetInfos1DoNotMatch else pure ()
  let response ← match pairQuery pair_contract with
    | some r => pure r
    | none => throw .queryFailed
  if assetMem response.asset_infos asset_infos.1 = false then throw .assetInfos0NotValid
  if assetMem response.asset_infos asset_infos.2 = false then throw .assetInfos1NotValid
  pure st

/-- CosmWasm transactional semantics (spec §5): an error returned by an
execute entry point aborts the whole transaction, reverting every storage
write the entry point performed; only an `ok` result commits. -/
def applyExec (st : TreasuryState) (r : Except Err TreasuryState) : TreasuryState :=
  match r with
  | .ok st' => st'
  | .error _ => st

/-- `Except.isOk` specialised to the embedding's error type. -/
def isOkE {α : Type} (e : Except Err α) : Bool :=
  match e with
  | .ok _ => true
  | .error _ => false

/-! ### Shared concrete states for witnesses and scenarios -/

/-- The spec's scenario rates `{tax = 0.10, reflection = 0.5, burn = 0.1}`
with a registered pair `"pair"`, treasury `"treasury"` and a funded account
`"alice"`. -/
def scenSt : TokenState := {
  admin := "admin"
  tax_rate := ⟨10 ^ 17⟩
  reflection_rate := ⟨5 * 10 ^ 17⟩
  burn_rate := ⟨10 ^ 17⟩
  max_transfer_supply_rate := Dec.one
  treasury := some "treasury"
  last_liquify := none
  pairlist := fun a => if a = "pair" then some true else none
  balances := fun a => if a = "alice" then some 1000000 else none
  allowances := fun o s => if o = "alice" ∧ s = "bob" then some 500 else none }

/-- The token state produced by the C10 witness instantiation. -/
def instantiate_c10_result : TokenState := {
  admin := "deployer"
  tax_rate := Dec.zero, reflection_rate := Dec.zero, burn_rate := Dec.zero
  max_transfer_supply_rate := Dec.one
  treasury := none, last_liquify := none
  pairlist := fun a => if a = "deployer" then some true else none
  balances := setKey (fun _ => none) "alice" 1000
  allowances := fun _ _ => none }

/-- A fully-bound treasury configuration for the liquify and pair-binding
scenarios. -/
def scenTreasury : TreasuryState := {
  admin := "tadmin"
  token := "babytoken"
  router := "router"
  min_liquify_amt := 100
  liquidity_token := some "lp"
  liquidity_pair_contract := some "liqpair"
  reflection_pair_contract := some "reflpair"
  liquidity_pair := some (AssetInfo.token "babytoken", AssetInfo.nativeToken "uinj")
  reflection_pair := some (AssetInfo.token "dojo", AssetInfo.nativeToken "uinj") }

/-- Querier for the C4 scenario: treasury balance `10000`, current token
rates `{tax 0.1, reflection 0.5, burn 0.1}`, and an arbitrary concrete AMM
simulation. -/
def scenLQuerier : LQuerier := {
  balance := 10000
  tax_rate := ⟨10 ^ 17⟩
  reflection_rate := ⟨5 * 10 ^ 17⟩
  burn_rate := ⟨10 ^ 17⟩
  transfer_rate := Dec.one
  simulateReturn := fun _ amt _ => amt / 3 }

/-- Querier reporting a dust balance below `min_liquify_amt` (for C9). -/
def dustLQuerier : LQuerier := { scenLQuerier with balance := 99 }

/-- A treasury state with no pair bound yet (for the C7 counterexample). -/
def unboundTreasury : TreasuryState := {
  admin := "tadmin"
  token := "babytoken"
  router := "router"
  min_liquify_amt := 0
  liquidity_token := none
  liquidity_pair_contract := none
  reflection_pair_contract := none
  liquidity_pair := none
  reflection_pair := none }

/-- An AMM whose reported pair is `(Token "ft", NativeToken "uinj")` with
liquidity-share token `"lp"`, answering only for contract `"pool"`. -/
def poolQuery : String → Option PairInfo := fun c =>
  if c = "pool" then
    some { asset_infos := (AssetInfo.token "ft", AssetInfo.nativeToken "uinj"),
           liquidity_token := "lp" }
  else none

/-! ### Arithmetic helper lemmas -/

theorem FRAC_pos : 0 < FRAC := by norm_num [FRAC]

theorem mulDec_le_self (u : Nat) (d : Dec) (hd : d.atomics ≤ FRAC) :
    u * d.atomics / FRAC ≤ u := by
  calc u * d.atomics / FRAC ≤ u * FRAC / FRAC :=
        Nat.div_le_div_right (Nat.mul_le_mul_left u hd)
    _ = u := Nat.mul_div_cancel u FRAC_pos

theorem mulDec_ok (u : Nat) (d : Dec) (hd : d.atomics ≤ FRAC) (hu : u < U128) :
    mulDec u d = .ok (u * d.atomics / FRAC) := by
  unfold mulDec
  rw [if_pos (lt_of_le_of_lt (mulDec_le_self u d hd) hu)]

theorem subU_ok (a b : Nat) (h : b ≤ a) : subU a b = .ok (a - b) := by
  unfold subU; rw [if_pos h]

theorem addU_ok (a b : Nat) (h : a + b < U128) : addU a b = .ok (a + b) := by
  unfold addU; rw [if_pos h]

/-- `a/c + b/c ≤ (a+b)/c` over `Nat`. -/
theorem div_add_div_le_add_div (a b c : Nat) : a / c + b / c ≤ (a + b) / c := by
  rcases Nat.eq_zero_or_pos c with hc | hc
  · simp [hc]
  · rw [Nat.le_div_iff_mul_le hc, Nat.add_mul]
    exact Nat.add_le_add (Nat.div_mul_le_self a c) (Nat.div_mul_le_self b c)

/-- Floor-truncating splits do not over-shoot: if the two share rates sum to
at most one, the two floored shares sum to at most the whole. -/
theorem shares_le_total (t r₁ r₂ : Nat) (h : r₁ + r₂ ≤ FRAC) :
    t * r₁ / FRAC + t * r₂ / FRAC ≤ t := by
  calc t * r₁ / FRAC + t * r₂ / FRAC ≤ (t * r₁ + t * r₂) / FRAC :=
        div_add_div_le_add_div _ _ _
    _ = t * (r₁ + r₂) / FRAC := by rw [Nat.mul_add]
    _ ≤ t * FRAC / FRAC := Nat.div_le_div_right (Nat.mul_le_mul_left t h)
    _ = t := Nat.mul_div_cancel t FRAC_pos

theorem ok_bind {α β : Type} (a : α) (fn : α → Except Err β) :
    (Except.ok a >>= fn) = fn a := rfl

theorem error_bind {α β : Type} (e : Err) (fn : α → Except Err β) :
    ((Except.error e : Except Err α) >>= fn) = Except.error e := rfl

theorem pure_eq_ok {α : Type} (a : α) : (pure a : Except Err α) = Except.ok a := rfl

theorem throw_eq_error {α : Type} (e : Err) : (throw e : Except Err α) = Except.error e := rfl

theorem setKey_same (m : String → Option Nat) (k : String) (v : Nat) :
    setKey m k v k = some v := by simp [setKey]

theorem setKey_other (m : String → Option Nat) (k : String) (v : Nat) (a : String)
    (h : a ≠ k) : setKey m k v a = m a := by simp [setKey, h]

/-- Full evaluation of `query_tax` under the `RateConfig` invariant
(`tax_rate ≤ 1`, `reflection_rate + burn_rate ≤ 1`). -/
theorem query_tax_ok (st : TokenState) (amount : Nat)
    (htax : st.tax_rate.atomics ≤ FRAC)
    (hrb : st.reflection_rate.atomics + st.burn_rate.atomics ≤ FRAC)
    (hamt : amount < U128) :
    query_tax st amount = .ok
      { taxed_amount := amount * st.tax_rate.atomics / FRAC
        after_tax := amount - amount * st.tax_rate.atomics / FRAC
        reflection_amount :=
          amount * st.tax_rate.atomics / FRAC * st.reflection_rate.atomics / FRAC
        liquidity_amount :=
          amount * st.tax_rate.atomics / FRAC
            - amount * st.tax_rate.atomics / FRAC * st.reflection_rate.atomics / FRAC
            - amount * st.tax_rate.atomics / FRAC * st.burn_rate.atomics / FRAC } := by
  have hrle : st.reflection_rate.atomics ≤ FRAC := le_trans (Nat.le_add_right _ _) hrb
  have hble : st.burn_rate.atomics ≤ FRAC := le_trans (Nat.le_add_left _ _) hrb
  have hTle := mulDec_le_self amount st.tax_rate htax
  have hTlt : amount * st.tax_rate.atomics / FRAC < U128 := lt_of_le_of_lt hTle hamt
  have hT := mulDec_ok amount st.tax_rate htax hamt
  have hR := mulDec_ok (amount * st.tax_rate.atomics / FRAC) st.reflection_rate hrle hTlt
  have hB := mulDec_ok (amount * st.tax_rate.atomics / FRAC) st.burn_rate hble hTlt
  have hRle := mulDec_le_self (amount * st.tax_rate.atomics / FRAC) st.reflection_rate hrle
  have hshares := shares_le_total (amount * st.tax_rate.atomics / FRAC)
    st.reflection_rate.atomics st.burn_rate.atomics hrb
  have hS1 := subU_ok amount (amount * st.tax_rate.atomics / FRAC) hTle
  have hS2 := subU_ok (amount * st.tax_rate.atomics / FRAC)
    (amount * st.tax_rate.atomics / FRAC * st.reflection_rate.atomics / FRAC) hRle
  have hS3 := subU_ok
    (amount * st.tax_rate.atomics / FRAC
      - amount * st.tax_rate.atomics / FRAC * st.reflection_rate.atomics / FRAC)
    (amount * st.tax_rate.atomics / FRAC * st.burn_rate.atomics / FRAC) (by omega)
  simp only [query_tax, hT, ok_bind, hS1, hR, hB, hS2, hS3, pure_eq_ok]

/-- Full evaluation of the taxed branch of `execute_transfer`: with a
registered pair on either side, distinct sender/recipient/treasury and
sufficient funds, the sender loses `amount`, the recipient gains
`after_tax` and the treasury gains `taxed_amount`. -/
theorem execute_transfer_taxed_eq
    (st : TokenState) (sender recipient t : String) (amount : Nat)
    (htreas : st.treasury = some t)
    (hpair : isPairFlag st sender recipient = true)
    (h0 : amount ≠ 0)
    (hfunds : amount ≤ (st.balances sender).getD 0)
    (hsr : sender ≠ recipient) (hst : sender ≠ t) (hrt : recipient ≠ t)
    (htax : st.tax_rate.atomics ≤ FRAC)
    (hrb : st.reflection_rate.atomics + st.burn_rate.atomics ≤ FRAC)
    (hamt : amount < U128)
    (hrov : (st.balances recipient).getD 0 + amount < U128)
    (htov : (st.balances t).getD 0 + amount < U128) :
    execute_transfer st sender recipient amount = .ok
      ({ st with balances :=
          (setKey (setKey (setKey st.balances sender ((st.balances sender).getD 0 - amount))
              recipient
              ((st.balances recipient).getD 0
                + (amount - amount * st.tax_rate.atomics / FRAC)))
            t ((st.balances t).getD 0 + amount * st.tax_rate.atomics / FRAC)) },
       [.transferEvent sender t (amount * st.tax_rate.atomics / FRAC)]) := by
  have hq := query_tax_ok st amount htax hrb hamt
  have hTle := mulDec_le_self amount st.tax_rate htax
  have ht' : st.treasury.getD "" = t := by rw [htreas]; rfl
  have hS := subU_ok ((st.balances sender).getD 0) amount hfunds
  have hk1 : setKey st.balances sender ((st.balances sender).getD 0 - amount) recipient
      = st.balances recipient := setKey_other _ _ _ _ (Ne.symm hsr)
  have hA1 := addU_ok ((st.balances recipient).getD 0)
    (amount - amount * st.tax_rate.atomics / FRAC)
    (lt_of_le_of_lt (Nat.add_le_add_left (Nat.sub_le amount _) _) hrov)
  have hk2 : setKey st.balances sender ((st.balances sender).getD 0 - amount) t
      = st.balances t := setKey_other _ _ _ _ (Ne.symm hst)
  have hk3 : setKey
      (setKey st.balances sender ((st.balances sender).getD 0 - amount)) recipient
      ((st.balances recipient).getD 0 + (amount - amount * st.tax_rate.atomics / FRAC)) t
      = st.balances t := by
    rw [setKey_other _ _ _ _ (Ne.symm hrt), hk2]
  have hA2 := addU_ok ((st.balances t).getD 0)
    (amount * st.tax_rate.atomics / FRAC)
    (lt_of_le_of_lt (Nat.add_le_add_left hTle _) htov)
  simp only [execute_transfer, h0, ite_false, hq, ok_bind, pure_eq_ok, hpair, ht',
    if_true, hS, hk1, hA1, hk3, hA2, ite_true]

/-- Full evaluation of the untaxed branch of `execute_transfer`: with
neither side registered, the full amount moves and no message is emitted. -/
theorem execute_transfer_untaxed_eq
    (st : TokenState) (sender recipient : String) (amount : Nat)
    (hpair : isPairFlag st sender recipient = false)
    (h0 : amount ≠ 0)
    (hfunds : amount ≤ (st.balances sender).getD 0)
    (hsr : sender ≠ recipient)
    (htax : st.tax_rate.atomics ≤ FRAC)
    (hrb : st.reflection_rate.atomics + st.burn_rate.atomics ≤ FRAC)
    (hamt : amount < U128)
    (hrov : (st.balances recipient).getD 0 + amount < U128) :
    execute_transfer st sender recipient amount = .ok
      ({ st with balances :=
          (setKey (setKey st.balances sender ((st.balances sender).getD 0 - amount))
            recipient ((st.balances recipient).getD 0 + amount)) }, []) := by
  have hq := query_tax_ok st amount htax hrb hamt
  have hS := subU_ok ((st.balances sender).getD 0) amount hfunds
  have hk1 : setKey st.balances sender ((st.balances sender).getD 0 - amount) recipient
      = st.balances recipient := setKey_other _ _ _ _ (Ne.symm hsr)
  have hA1 := addU_ok ((st.balances recipient).getD 0) amount hrov
  simp only [execute_transfer, h0, ite_false, hq, ok_bind, pure_eq_ok, hpair,
    hS, hk1, hA1, Bool.false_eq_true, if_false]

/-- Single-run evaluation of the throttle when it fires: an authorized call
with `now > last_liquify + 1` records `now` and emits the Liquify message. -/
theorem gte_trigger_eq (st : TokenState) (c : String) (now : Nat) (src dst : String)
    (amt : Nat) (h : st.last_liquify.getD 0 + 1 < now) :
    generate_transfer_event st c c now src dst amt
      = .ok ({ st with last_liquify := some now },
             [.liquify (st.treasury.getD "")]) := by
  simp [generate_transfer_event, h, pure_eq_ok, ok_bind]

/-- Single-run evaluation of the throttle when it does not fire: an
authorized call with `now ≤ last_liquify + 1` changes nothing and emits no
message. -/
theorem gte_skip_eq (st : TokenState) (c : String) (now : Nat) (src dst : String)
    (amt : Nat) (h : ¬ st.last_liquify.getD 0 + 1 < now) :
    generate_transfer_event st c c now src dst amt = .ok (st, []) := by
  simp [generate_transfer_event, h, pure_eq_ok, ok_bind]

/-! ### Claims -/

/-- C1: for every taxable transfer (sender or recipient registered in the
pair registry) of a strictly positive amount with sufficient sender balance
and distinct sender, recipient and treasury addresses (under the RateConfig
invariant and `Uint128` bounds): the sender loses exactly the full nominal
`amount`, the recipient gains `after_tax`, the treasury gains `taxed_amount`,
and recipient gain plus treasury gain equals `amount` — no value created or
destroyed. -/
theorem c1_taxed_transfer_balances
    (st : TokenState) (sender recipient t : String) (amount : Nat)
    (htreas : st.treasury = some t)
    (hpair : isPairFlag st sender recipient = true)
    (hpos : 0 < amount)
    (hfunds : amount ≤ (st.balances sender).getD 0)
    (hsr : sender ≠ recipient) (hst : sender ≠ t) (hrt : recipient ≠ t)
    (htax : st.tax_rate.atomics ≤ FRAC)
    (hrb : st.reflection_rate.atomics + st.burn_rate.atomics ≤ FRAC)
    (hamt : amount < U128)
    (hrov : (st.balances recipient).getD 0 + amount < U128)
    (htov : (st.balances t).getD 0 + amount < U128) :
    ∃ (st' : TokenState) (msgs : List TokenMsg) (r : QueryTaxResponse),
      execute_transfer st sender recipient amount = .ok (st', msgs) ∧
      query_tax st amount = .ok r ∧
      (st'.balances sender).getD 0 = (st.balances sender).getD 0 - amount ∧
      (st.balances sender).getD 0 - (st'.balances sender).getD 0 = amount ∧
      (st'.balances recipient).getD 0 = (st.balances recipient).getD 0 + r.after_tax ∧
      (st'.balances t).getD 0 = (st.balances t).getD 0 + r.taxed_amount ∧
      ((st'.balances recipient).getD 0 - (st.balances recipient).getD 0)
        + ((st'.balances t).getD 0 - (st.balances t).getD 0) = amount := by
  have h0 : amount ≠ 0 := by omega
  have heq := execute_transfer_taxed_eq st sender recipient t amount htreas hpair h0
    hfunds hsr hst hrt htax hrb hamt hrov htov
  have hq := query_tax_ok st amount htax hrb hamt
  have hTle := mulDec_le_self amount st.tax_rate htax
  refine ⟨_, _, _, heq, hq, ?_, ?_, ?_, ?_, ?_⟩
  · simp [setKey, hst, hsr]
  · simp [setKey, hst, hsr]; omega
  · simp [setKey, hrt]
  · simp [setKey]
  · simp [setKey, hrt]; omega

/-- Witness for C1: a taxed transfer of `100000` from `"alice"` to the
registered pair address at the scenario rates. -/
theorem c1_taxed_transfer_balances_witness :
    (scenSt.treasury = some "treasury" ∧
     isPairFlag scenSt "alice" "pair" = true ∧
     (0 : Nat) < 100000 ∧
     100000 ≤ (scenSt.balances "alice").getD 0) ∧
    (∃ (st' : TokenState) (msgs : List TokenMsg) (r : QueryTaxResponse),
      execute_transfer scenSt "alice" "pair" 100000 = .ok (st', msgs) ∧
      query_tax scenSt 100000 = .ok r ∧
      (st'.balances "alice").getD 0 = (scenSt.balances "alice").getD 0 - 100000 ∧
      (scenSt.balances "alice").getD 0 - (st'.balances "alice").getD 0 = 100000 ∧
      (st'.balances "pair").getD 0 = (scenSt.balances "pair").getD 0 + r.after_tax ∧
      (st'.balances "treasury").getD 0
        = (scenSt.balances "treasury").getD 0 + r.taxed_amount ∧
      ((st'.balances "pair").getD 0 - (scenSt.balances "pair").getD 0)
        + ((st'.balances "treasury").getD 0 - (scenSt.balances "treasury").getD 0)
        = 100000) :=
  ⟨⟨by decide, by decide, by decide, by decide⟩,
   c1_taxed_transfer_balances scenSt "alice" "pair" "treasury" 100000
     (by decide) (by decide) (by decide) (by decide) (by decide) (by decide)
     (by decide) (by decide) (by decide) (by decide) (by decide) (by decide)⟩

/-- C8: for every transfer of a strictly positive amount where neither the
sender nor the recipient is registered in the pair registry (and sender ≠
recipient, sufficient funds, RateConfig invariant, `Uint128` bounds), the
full nominal amount moves from sender to recipient and every other balance —
in particular the treasury's — is unchanged. -/
theorem c8_untaxed_transfer_frame
    (st : TokenState) (sender recipient : String) (amount : Nat)
    (hsp : (st.pairlist sender).getD false = false)
    (hrp : (st.pairlist recipient).getD false = false)
    (hpos : 0 < amount)
    (hfunds : amount ≤ (st.balances sender).getD 0)
    (hsr : sender ≠ recipient)
    (htax : st.tax_rate.atomics ≤ FRAC)
    (hrb : st.reflection_rate.atomics + st.burn_rate.atomics ≤ FRAC)
    (hamt : amount < U128)
    (hrov : (st.balances recipient).getD 0 + amount < U128) :
    ∃ (st' : TokenState) (msgs : List TokenMsg),
      execute_transfer st sender recipient amount = .ok (st', msgs) ∧
      msgs = [] ∧
      (st'.balances sender).getD 0 = (st.balances sender).getD 0 - amount ∧
      (st.balances sender).getD 0 - (st'.balances sender).getD 0 = amount ∧
      (st'.balances recipient).getD 0 = (st.balances recipient).getD 0 + amount ∧
      ∀ a, a ≠ sender → a ≠ recipient → st'.balances a = st.balances a := by
  have hpair : isPairFlag st sender recipient = false := by
    simp [isPairFlag, hsp, hrp]
  have h0 : amount ≠ 0 := by omega
  have heq := execute_transfer_untaxed_eq st sender recipient amount hpair h0
    hfunds hsr htax hrb hamt hrov
  refine ⟨_, _, heq, rfl, ?_, ?_, ?_, ?_⟩
  · simp [setKey, hsr]
  · simp [setKey, hsr]; omega
  · simp [setKey]
  · intro a has har
    simp [setKey, has, har]

/-- Witness for C8: an untaxed transfer of `1000` from `"alice"` to `"bob"`
(neither registered) at the scenario state; the treasury is untouched. -/
theorem c8_untaxed_transfer_frame_witness :
    ((scenSt.pairlist "alice").getD false = false ∧
     (scenSt.pairlist "bob").getD false = false ∧
     (0 : Nat) < 1000 ∧
     1000 ≤ (scenSt.balances "alice").getD 0) ∧
    (∃ (st' : TokenState) (msgs : List TokenMsg),
      execute_transfer scenSt "alice" "bob" 1000 = .ok (st', msgs) ∧
      msgs = [] ∧
      (st'.balances "alice").getD 0 = (scenSt.balances "alice").getD 0 - 1000 ∧
      (scenSt.balances "alice").getD 0 - (st'.balances "alice").getD 0 = 1000 ∧
      (st'.balances "bob").getD 0 = (scenSt.balances "bob").getD 0 + 1000 ∧
      ∀ a, a ≠ "alice" → a ≠ "bob" → st'.balances a = scenSt.balances a) :=
  ⟨⟨by decide, by decide, by decide, by decide⟩,
   c8_untaxed_transfer_frame scenSt "alice" "bob" 1000
     (by decide) (by decide) (by decide) (by decide) (by decide) (by decide)
     (by decide) (by decide) (by decide)⟩

/-- C2: for every amount and initialized rate configuration satisfying the
`RateConfig` invariant, the tax query returns
`taxed_amount = floor (amount * tax_rate)`, `after_tax = amount - taxed`,
`reflection_amount = floor (taxed * reflection_rate)`, and
`liquidity_amount = taxed - reflection - burn` with
`burn = floor (taxed * burn_rate)`, exactly (no negative liquidity:
`reflection + burn + liquidity = taxed`); for the scenario rates
`{0.10, 0.5, 0.1}` and amount `100000` it yields
`{taxed 10000, after_tax 90000, reflection 5000, liquidity 4000}` with an
internal burn amount of `1000`. -/
theorem c2_tax_breakdown :
    (∀ (st : TokenState) (amount : Nat),
      st.tax_rate.atomics ≤ FRAC →
      st.reflection_rate.atomics + st.burn_rate.atomics ≤ FRAC →
      amount < U128 →
      ∃ r : QueryTaxResponse,
        query_tax st amount = .ok r ∧
        r.taxed_amount = amount * st.tax_rate.atomics / FRAC ∧
        r.after_tax = amount - r.taxed_amount ∧
        r.taxed_amount ≤ amount ∧
        r.reflection_amount = r.taxed_amount * st.reflection_rate.atomics / FRAC ∧
        r.liquidity_amount = r.taxed_amount - r.reflection_amount
          - r.taxed_amount * st.burn_rate.atomics / FRAC ∧
        r.reflection_amount + r.taxed_amount * st.burn_rate.atomics / FRAC
          + r.liquidity_amount = r.taxed_amount) ∧
    query_tax scenSt 100000 =
      .ok { taxed_amount := 10000, after_tax := 90000,
            reflection_amount := 5000, liquidity_amount := 4000 } ∧
    10000 * scenSt.burn_rate.atomics / FRAC = 1000 := by
  refine ⟨?_, by rfl, by rfl⟩
  intro st amount htax hrb hamt
  refine ⟨_, query_tax_ok st amount htax hrb hamt, rfl, rfl, ?_, rfl, rfl, ?_⟩
  · exact mulDec_le_self amount st.tax_rate htax
  · have hrle : st.reflection_rate.atomics ≤ FRAC := le_trans (Nat.le_add_right _ _) hrb
    have hRle := mulDec_le_self (amount * st.tax_rate.atomics / FRAC) st.reflection_rate hrle
    have hshares := shares_le_total (amount * st.tax_rate.atomics / FRAC)
      st.reflection_rate.atomics st.burn_rate.atomics hrb
    dsimp only
    omega

/-- Witness for C2: the universal part applied at the scenario state and
amount `77777`. -/
theorem c2_tax_breakdown_witness :
    (scenSt.tax_rate.atomics ≤ FRAC ∧
     scenSt.reflection_rate.atomics + scenSt.burn_rate.atomics ≤ FRAC ∧
     (77777 : Nat) < U128) ∧
    (∃ r : QueryTaxResponse,
      query_tax scenSt 77777 = .ok r ∧
      r.taxed_amount = 77777 * scenSt.tax_rate.atomics / FRAC ∧
      r.after_tax = 77777 - r.taxed_amount ∧
      r.taxed_amount ≤ 77777 ∧
      r.reflection_amount = r.taxed_amount * scenSt.reflection_rate.atomics / FRAC ∧
      r.liquidity_amount = r.taxed_amount - r.reflection_amount
        - r.taxed_amount * scenSt.burn_rate.atomics / FRAC ∧
      r.reflection_amount + r.taxed_amount * scenSt.burn_rate.atomics / FRAC
        + r.liquidity_amount = r.taxed_amount) :=
  ⟨⟨by decide, by decide, by decide⟩,
   c2_tax_breakdown.1 scenSt 77777 (by decide) (by decide) (by decide)⟩

/-- Counterexample to C3 as stated: a delegated transfer-from of amount `0`
(with an existing allowance `"alice" → "bob"`) does NOT fail with the
invalid-amount error — the source has no zero-amount check in
`execute_transfer_from`. -/
theorem c3_zero_amount_counterexample :
    execute_transfer_from scenSt "bob" "alice" "dave" 0
      ≠ .error .invalidZeroAmount := by
  intro h
  have hok : isOkE (execute_transfer_from scenSt "bob" "alice" "dave" 0) = true := by rfl
  rw [h] at hok
  simp [isOkE] at hok

/-- C3 (amended): direct transfer and transfer-with-notification fail with
the invalid-amount error on a zero amount, for every state; the two
delegated operations perform no zero-amount check — with an existing
allowance a zero-amount `transfer_from`/`send_from` succeeds. -/
theorem c3_zero_amount_checks :
    (∀ (st : TokenState) (sender recipient : String),
      execute_transfer st sender recipient 0 = .error .invalidZeroAmount) ∧
    (∀ (st : TokenState) (sender contract payload : String),
      execute_send st sender contract 0 payload = .error .invalidZeroAmount) ∧
    isOkE (execute_transfer_from scenSt "bob" "alice" "carol" 0) = true ∧
    isOkE (execute_send_from scenSt "bob" "alice" "carol" 0 "hi") = true := by
  refine ⟨?_, ?_, by rfl, by rfl⟩
  · intro st sender recipient; rfl
  · intro st sender contract payload; rfl

/-- C5: the throttle, called by the contract itself, emits a liquify trigger
iff `now > last_liquify + 1` (one-second interval), records `now` exactly
when it triggers and leaves the timestamp unchanged otherwise; and two
sequential requests whose timestamps differ by less than the minimum
interval produce at most one liquify invocation. -/
theorem c5_liquify_throttle :
    (∀ (st : TokenState) (c : String) (now : Nat) (src dst : String) (amt : Nat),
      ∃ (st' : TokenState) (msgs : List TreasuryMsg),
        generate_transfer_event st c c now src dst amt = .ok (st', msgs) ∧
        (msgs ≠ [] ↔ st.last_liquify.getD 0 + 1 < now) ∧
        (st.last_liquify.getD 0 + 1 < now →
          st'.last_liquify = some now ∧ msgs = [.liquify (st.treasury.getD "")]) ∧
        (¬ st.last_liquify.getD 0 + 1 < now → st' = st ∧ msgs = [])) ∧
    (∀ (st st1 st2 : TokenState) (c : String) (t1 t2 : Nat) (src dst : String)
        (amt : Nat) (m1 m2 : List TreasuryMsg),
      t1 ≤ t2 → t2 - t1 < 1 →
      generate_transfer_event st c c t1 src dst amt = .ok (st1, m1) →
      generate_transfer_event st1 c c t2 src dst amt = .ok (st2, m2) →
      m1.length + m2.length ≤ 1) := by
  constructor
  · intro st c now src dst amt
    by_cases h : st.last_liquify.getD 0 + 1 < now
    · refine ⟨_, _, gte_trigger_eq st c now src dst amt h, ?_, fun _ => ⟨rfl, rfl⟩,
        fun hc => absurd h hc⟩
      simp [h]
    · refine ⟨_, _, gte_skip_eq st c now src dst amt h, ?_, fun hc => absurd hc h,
        fun _ => ⟨rfl, rfl⟩⟩
      simp [h]
  · intro st st1 st2 c t1 t2 src dst amt m1 m2 h12 hlt h1 h2
    have ht : t2 = t1 := by omega
    subst ht
    by_cases h : st.last_liquify.getD 0 + 1 < t2
    · rw [gte_trigger_eq st c t2 src dst amt h] at h1
      injection Except.ok.inj h1 with hst1 hm1
      subst hst1; subst hm1
      have h2' : ¬ (({ st with last_liquify := some t2 } :
          TokenState).last_liquify.getD 0 + 1 < t2) := by simp
      rw [gte_skip_eq _ c t2 src dst amt h2'] at h2
      injection Except.ok.inj h2 with hst2 hm2
      subst hm2
      simp
    · rw [gte_skip_eq st c t2 src dst amt h] at h1
      injection Except.ok.inj h1 with hst1 hm1
      subst hst1; subst hm1
      by_cases hb : st.last_liquify.getD 0 + 1 < t2
      · rw [gte_trigger_eq st c t2 src dst amt hb] at h2
        injection Except.ok.inj h2 with hst2 hm2
        subst hm2
        simp
      · rw [gte_skip_eq st c t2 src dst amt hb] at h2
        injection Except.ok.inj h2 with hst2 hm2
        subst hm2
        simp

/-- Witness for C5: two throttle requests at the same timestamp `5` on the
scenario state (stored timestamp `0`): the first fires, the second does not. -/
theorem c5_liquify_throttle_witness :
    ((5 : Nat) ≤ 5 ∧ (5 : Nat) - 5 < 1) ∧
    (generate_transfer_event scenSt "self" "self" 5 "a" "b" 10
      = .ok ({ scenSt with last_liquify := some 5 }, [.liquify "treasury"])) ∧
    (generate_transfer_event { scenSt with last_liquify := some 5 } "self" "self" 5 "a" "b" 10
      = .ok ({ scenSt with last_liquify := some 5 }, [])) ∧
    ([TreasuryMsg.liquify "treasury"].length + ([] : List TreasuryMsg).length ≤ 1) :=
  ⟨⟨by decide, by decide⟩, rfl, rfl,
   c5_liquify_throttle.2 scenSt { scenSt with last_liquify := some 5 }
     { scenSt with last_liquify := some 5 } "self" 5 5 "a" "b" 10
     [TreasuryMsg.liquify "treasury"] [] (by decide) (by decide) rfl rfl⟩

/-- Any successful `instantiate` leaves exactly the instantiating sender in
the pair registry, with flag `true`. -/
theorem instantiate_ok_pairlist (sender : String) (msg : InstMsg) (st : TokenState)
    (h : instantiate sender msg = .ok st) :
    st.pairlist = fun a => if a = sender then some true else none := by
  unfold instantiate at h
  by_cases hv : msg.metadata_valid = false
  · rw [if_pos hv] at h
    simp [throw_eq_error, error_bind] at h
  · rw [if_neg hv, pure_eq_ok, ok_bind] at h
    rcases hcap : msg.mint_cap with _ | cap
    · rw [hcap] at h
      simp only [pure_eq_ok, ok_bind] at h
      injection h with h'
      rw [← h']
    · rw [hcap] at h
      dsimp only at h
      by_cases hgt : (create_accounts (fun _ => none) msg.initial_balances).2 > cap
      · rw [if_pos hgt, throw_eq_error, error_bind] at h
        exact Except.noConfusion h
      · rw [if_neg hgt, pure_eq_ok, ok_bind] at h
        injection h with h'
        rw [← h']

/-- C10: token instantiation registers the instantiating sender's own
address in the pair registry with flag `true`, so immediately afterwards any
transfer to or from the instantiator is classified as a taxed-venue
(`is_pair`) transfer. -/
theorem c10_instantiator_is_pair (sender : String) (msg : InstMsg) (st : TokenState)
    (h : instantiate sender msg = .ok st) :
    st.pairlist sender = some true ∧
    (∀ recipient, isPairFlag st sender recipient = true) ∧
    (∀ s, isPairFlag st s sender = true) := by
  have hp := instantiate_ok_pairlist sender msg st h
  refine ⟨by rw [hp]; simp, ?_, ?_⟩
  · intro recipient
    simp [isPairFlag, hp]
  · intro s
    simp [isPairFlag, hp]

/-- Witness for C10: instantiating as `"deployer"` with one initial account
registers `"deployer"` in the pair registry. -/
theorem c10_instantiator_is_pair_witness :
    (instantiate "deployer"
        { metadata_valid := true, initial_balances := [("alice", 1000)],
          mint_cap := some 5000 }
      = .ok (instantiate_c10_result)) ∧
    (instantiate_c10_result.pairlist "deployer" = some true ∧
     (∀ recipient, isPairFlag instantiate_c10_result "deployer" recipient = true) ∧
     (∀ s, isPairFlag instantiate_c10_result s "deployer" = true)) :=
  ⟨rfl,
   c10_instantiator_is_pair "deployer"
     { metadata_valid := true, initial_balances := [("alice", 1000)],
       mint_cap := some 5000 }
     instantiate_c10_result rfl⟩

/-- C9: with the pair configuration bound, a treasury token balance strictly
below `min_liquify_amt` makes liquify return an empty instruction list and
leave the state — hence also the liquify timestamp — unchanged (the source
performs no storage write on this path at all). -/
theorem c9_liquify_below_min
    (q : LQuerier) (st : TreasuryState)
    (lp : AssetInfo × AssetInfo) (lpc : String) (rp : AssetInfo × AssetInfo)
    (hlp : st.liquidity_pair = some lp)
    (hlpc : st.liquidity_pair_contract = some lpc)
    (hrp : st.reflection_pair = some rp)
    (hlt : q.balance < st.min_liquify_amt) :
    liquify_treasury q st = .ok (st, []) := by
  simp [liquify_treasury, hlp, hlpc, hrp, req, hlt, pure_eq_ok, ok_bind]

/-- Witness for C9: the dust querier (balance `99`) on the bound scenario
treasury (minimum `100`). -/
theorem c9_liquify_below_min_witness :
    (scenTreasury.liquidity_pair
        = some (AssetInfo.token "babytoken", AssetInfo.nativeToken "uinj") ∧
     scenTreasury.liquidity_pair_contract = some "liqpair" ∧
     scenTreasury.reflection_pair
        = some (AssetInfo.token "dojo", AssetInfo.nativeToken "uinj") ∧
     dustLQuerier.balance < scenTreasury.min_liquify_amt) ∧
    liquify_treasury dustLQuerier scenTreasury = .ok (scenTreasury, []) :=
  ⟨⟨by decide, by decide, by decide, by decide⟩,
   c9_liquify_below_min dustLQuerier scenTreasury
     (AssetInfo.token "babytoken", AssetInfo.nativeToken "uinj") "liqpair"
     (AssetInfo.token "dojo", AssetInfo.nativeToken "uinj")
     (by decide) (by decide) (by decide) (by decide)⟩

/-- C4: for every treasury balance at or above `min_liquify_amt` and bound
pair configuration, under `reflection_rate + burn_rate ≤ 1`, the liquify
computation satisfies `reflect = floor (bal * reflection_rate)`,
`burn = floor (bal * burn_rate)`, `liquidity = bal - reflect - burn`, with
`reflect + burn + liquidity = bal` exactly (no negative liquidity); and when
`liquidity > 0` the liquidity leg swaps exactly `liquidity / 2` and deposits
the remaining `liquidity - liquidity / 2` together with the simulated
counter-asset return amount. -/
theorem c4_liquify_split
    (q : LQuerier) (st : TreasuryState)
    (lp : AssetInfo × AssetInfo) (lpc : String) (rp : AssetInfo × AssetInfo)
    (hlp : st.liquidity_pair = some lp)
    (hlpc : st.liquidity_pair_contract = some lpc)
    (hrp : st.reflection_pair = some rp)
    (hge : st.min_liquify_amt ≤ q.balance)
    (hrb : q.reflection_rate.atomics + q.burn_rate.atomics ≤ FRAC)
    (hbal : q.balance < U128) :
    ∃ msgs : List WMsg,
      liquify_treasury q st = .ok (st, msgs) ∧
      q.balance * q.reflection_rate.atomics / FRAC
        + q.balance * q.burn_rate.atomics / FRAC
        + (q.balance - q.balance * q.reflection_rate.atomics / FRAC
            - q.balance * q.burn_rate.atomics / FRAC)
        = q.balance ∧
      (0 < q.balance - q.balance * q.reflection_rate.atomics / FRAC
          - q.balance * q.burn_rate.atomics / FRAC →
        WMsg.swapViaSend st.token lpc
            ((q.balance - q.balance * q.reflection_rate.atomics / FRAC
              - q.balance * q.burn_rate.atomics / FRAC) / 2) ∈ msgs ∧
        ∃ funds,
          WMsg.provideLiquidity lpc
            ((q.balance - q.balance * q.reflection_rate.atomics / FRAC
              - q.balance * q.burn_rate.atomics / FRAC)
             - (q.balance - q.balance * q.reflection_rate.atomics / FRAC
                - q.balance * q.burn_rate.atomics / FRAC) / 2)
            lp.1
            (q.simulateReturn lpc
              ((q.balance - q.balance * q.reflection_rate.atomics / FRAC
                - q.balance * q.burn_rate.atomics / FRAC) / 2) lp.1)
            lp.2 funds ∈ msgs) := by
  have hnot : ¬ q.balance < st.min_liquify_amt := not_lt.mpr hge
  have hrle : q.reflection_rate.atomics ≤ FRAC := le_trans (Nat.le_add_right _ _) hrb
  have hble : q.burn_rate.atomics ≤ FRAC := le_trans (Nat.le_add_left _ _) hrb
  have hR := mulDec_ok q.balance q.reflection_rate hrle hbal
  have hB := mulDec_ok q.balance q.burn_rate hble hbal
  have hRle := mulDec_le_self q.balance q.reflection_rate hrle
  have hshares := shares_le_total q.balance q.reflection_rate.atomics
    q.burn_rate.atomics hrb
  have hS1 := subU_ok q.balance (q.balance * q.reflection_rate.atomics / FRAC) hRle
  have hS2 := subU_ok (q.balance - q.balance * q.reflection_rate.atomics / FRAC)
    (q.balance * q.burn_rate.atomics / FRAC) (by omega)
  have hK := subU_ok
    (q.balance - q.balance * q.reflection_rate.atomics / FRAC
      - q.balance * q.burn_rate.atomics / FRAC)
    ((q.balance - q.balance * q.reflection_rate.atomics / FRAC
      - q.balance * q.burn_rate.atomics / FRAC) / 2)
    (Nat.div_le_self _ 2)
  set L := q.balance - q.balance * q.reflection_rate.atomics / FRAC
      - q.balance * q.burn_rate.atomics / FRAC with hLdef
  obtain ⟨rp1, rp2⟩ := rp
  by_cases hpos : 0 < L
  · cases rp2 with
    | nativeToken denom =>
        have heval : liquify_treasury q st = .ok (st,
            [WMsg.increaseAllowance st.token lpc (L - L / 2),
             WMsg.swapViaSend st.token lpc (L / 2),
             WMsg.provideLiquidity lpc (L - L / 2) lp.1
               (q.simulateReturn lpc (L / 2) lp.1) lp.2
               [(q.simulateReturn lpc (L / 2) lp.1, denom)]]
            ++ (if 0 < q.balance * q.reflection_rate.atomics / FRAC then
                 [WMsg.routerSwap st.token st.router
                    (q.balance * q.reflection_rate.atomics / FRAC)
                    [(AssetInfo.token st.token, AssetInfo.nativeToken denom),
                     (AssetInfo.nativeToken denom, rp1)]] else [])
            ++ (if 0 < q.balance * q.burn_rate.atomics / FRAC then
                 [WMsg.burn st.token (q.balance * q.burn_rate.atomics / FRAC)]
               else [])) := by
          simp [liquify_treasury, hlp, hlpc, hrp, req, hnot, hR, hB, hS1, hS2, hK,
            hpos, pure_eq_ok, ok_bind]
        refine ⟨_, heval, by omega, fun _ => ⟨?_, ⟨[(q.simulateReturn lpc (L / 2) lp.1, denom)], ?_⟩⟩⟩
        · simp [List.mem_append]
        · simp [List.mem_append]
    | token ca =>
        have heval : liquify_treasury q st = .ok (st,
            [WMsg.increaseAllowance st.token lpc (L - L / 2),
             WMsg.swapViaSend st.token lpc (L / 2),
             WMsg.increaseAllowance ca lpc (q.simulateReturn lpc (L / 2) lp.1),
             WMsg.provideLiquidity lpc (L - L / 2) lp.1
               (q.simulateReturn lpc (L / 2) lp.1) lp.2 []]
            ++ (if 0 < q.balance * q.reflection_rate.atomics / FRAC then
                 [WMsg.routerSwap st.token st.router
                    (q.balance * q.reflection_rate.atomics / FRAC)
                    [(AssetInfo.token st.token, AssetInfo.token ca),
                     (AssetInfo.token ca, rp1)]] else [])
            ++ (if 0 < q.balance * q.burn_rate.atomics / FRAC then
                 [WMsg.burn st.token (q.balance * q.burn_rate.atomics / FRAC)]
               else [])) := by
          simp [liquify_treasury, hlp, hlpc, hrp, req, hnot, hR, hB, hS1, hS2, hK,
            hpos, pure_eq_ok, ok_bind]
        refine ⟨_, heval, by omega, fun _ => ⟨?_, ⟨[], ?_⟩⟩⟩
        · simp [List.mem_append]
        · simp [List.mem_append]
  · have heval : liquify_treasury q st = .ok (st,
        ([] : List WMsg)
        ++ (if 0 < q.balance * q.reflection_rate.atomics / FRAC then
             [WMsg.routerSwap st.token st.router
                (q.balance * q.reflection_rate.atomics / FRAC)
                [(AssetInfo.token st.token, rp2), (rp2, rp1)]] else [])
        ++ (if 0 < q.balance * q.burn_rate.atomics / FRAC then
             [WMsg.burn st.token (q.balance * q.burn_rate.atomics / FRAC)]
           else [])) := by
      simp [liquify_treasury, hlp, hlpc, hrp, req, hnot, hR, hB, hS1, hS2,
        hpos, pure_eq_ok, ok_bind]
    exact ⟨_, heval, by omega, fun hc => absurd hc hpos⟩

/-- Witness for C4: the spec scenario — balance `10000`, reflection `0.5`,
burn `0.1` → split `5000/1000/4000`; the liquidity leg swaps `2000` and
deposits the remaining `2000` with the simulated return (`666`). -/
theorem c4_liquify_split_witness :
    (scenTreasury.liquidity_pair
        = some (AssetInfo.token "babytoken", AssetInfo.nativeToken "uinj") ∧
     scenTreasury.liquidity_pair_contract = some "liqpair" ∧
     scenTreasury.reflection_pair
        = some (AssetInfo.token "dojo", AssetInfo.nativeToken "uinj") ∧
     scenTreasury.min_liquify_amt ≤ scenLQuerier.balance ∧
     scenLQuerier.reflection_rate.atomics + scenLQuerier.burn_rate.atomics ≤ FRAC ∧
     scenLQuerier.balance < U128) ∧
    (∃ msgs : List WMsg,
      liquify_treasury scenLQuerier scenTreasury = .ok (scenTreasury, msgs) ∧
      5000 + 1000 + 4000 = (10000 : Nat) ∧
      ((0 : Nat) < 4000 →
        WMsg.swapViaSend "babytoken" "liqpair" 2000 ∈ msgs ∧
        ∃ funds,
          WMsg.provideLiquidity "liqpair" 2000 (AssetInfo.token "babytoken") 666
            (AssetInfo.nativeToken "uinj") funds ∈ msgs)) :=
  ⟨⟨by decide, by decide, by decide, by decide, by decide, by decide⟩,
   c4_liquify_split scenLQuerier scenTreasury
     (AssetInfo.token "babytoken", AssetInfo.nativeToken "uinj") "liqpair"
     (AssetInfo.token "dojo", AssetInfo.nativeToken "uinj")
     (by decide) (by decide) (by decide) (by decide) (by decide) (by decide)⟩

/-- C6: binding a reflection pair whose quote (second) asset differs from
the quote asset of the already-bound liquidity pair fails with the
mismatched-quote-asset error, and — by the CosmWasm transaction semantics
that revert all writes of a failed execute — no stored binding changes. -/
theorem c6_reflection_pair_mismatch
    (pairQuery : String → Option PairInfo) (st : TreasuryState) (sender : String)
    (ai : AssetInfo × AssetInfo) (pc : String) (l : AssetInfo × AssetInfo)
    (hadmin : sender = st.admin)
    (hlq : st.liquidity_pair = some l)
    (hmis : l.2 ≠ ai.2) :
    set_reflection_pair pairQuery st sender ai pc = .error .assetInfos1DoNotMatch ∧
    applyExec st (set_reflection_pair pairQuery st sender ai pc) = st := by
  have herr : set_reflection_pair pairQuery st sender ai pc
      = .error .assetInfos1DoNotMatch := by
    simp [set_reflection_pair, ensure_admin, hadmin, hlq, hmis, throw_eq_error,
      error_bind, pure_eq_ok, ok_bind]
  refine ⟨herr, ?_⟩
  rw [herr]
  rfl

/-- Witness for C6: rebinding the reflection pair of the bound scenario
treasury with quote asset `uxyz` (the bound liquidity pair's quote is
`uinj`) fails and commits nothing. -/
theorem c6_reflection_pair_mismatch_witness :
    ("tadmin" = scenTreasury.admin ∧
     scenTreasury.liquidity_pair
        = some (AssetInfo.token "babytoken", AssetInfo.nativeToken "uinj") ∧
     (AssetInfo.token "babytoken", AssetInfo.nativeToken "uinj").2
        ≠ (AssetInfo.token "dojo", AssetInfo.nativeToken "uxyz").2) ∧
    (set_reflection_pair poolQuery scenTreasury "tadmin"
        (AssetInfo.token "dojo", AssetInfo.nativeToken "uxyz") "pool"
      = .error .assetInfos1DoNotMatch ∧
     applyExec scenTreasury (set_reflection_pair poolQuery scenTreasury "tadmin"
        (AssetInfo.token "dojo", AssetInfo.nativeToken "uxyz") "pool")
      = scenTreasury) :=
  ⟨⟨by decide, by decide, by decide⟩,
   c6_reflection_pair_mismatch poolQuery scenTreasury "tadmin"
     (AssetInfo.token "dojo", AssetInfo.nativeToken "uxyz") "pool"
     (AssetInfo.token "babytoken", AssetInfo.nativeToken "uinj")
     (by decide) (by decide) (by decide)⟩

/-- Counterexample to C7 as stated: the supplied `assets[0]` here is a
native-chain coin (`uinj`) and is not the native token itself, yet binding
the liquidity pair SUCCEEDS, because the source applies its cw20-type check
to the AMM's REPORTED first asset (`Token "ft"`) and never compares the
supplied `assets[0]` with the token; both supplied assets appear in the
reported ordering, which is all that is required of them. -/
theorem c7_liquidity_pair_counterexample :
    isOkE (set_liquidity_pair poolQuery unboundTreasury "tadmin"
      (AssetInfo.nativeToken "uinj", AssetInfo.token "ft") "pool") = true := by rfl

/-- C7 (amended): with no reflection pair bound and the pair-info query
answering, binding the liquidity pair succeeds iff the AMM's REPORTED first
asset is of cw20 token type and both SUPPLIED assets appear
(order-independently) in the reported ordering; the supplied `assets[0]` is
never compared against the native token itself. -/
theorem c7_liquidity_pair_validation
    (pairQuery : String → Option PairInfo) (st : TreasuryState) (sender : String)
    (ai : AssetInfo × AssetInfo) (pc : String) (resp : PairInfo)
    (hadmin : sender = st.admin)
    (hrefl : st.reflection_pair = none)
    (hq : pairQuery pc = some resp) :
    isOkE (set_liquidity_pair pairQuery st sender ai pc) = true ↔
      ((∃ ca, resp.asset_infos.1 = AssetInfo.token ca) ∧
       assetMem resp.asset_infos ai.1 = true ∧
       assetMem resp.asset_infos ai.2 = true) := by
  subst hadmin
  rcases h1 : resp.asset_infos.1 with ca | d
  · by_cases m1 : assetMem resp.asset_infos ai.1 = true
    · by_cases m2 : assetMem resp.asset_infos ai.2 = true
      · simp [set_liquidity_pair, ensure_admin, hrefl, hq, h1, m1, m2,
          throw_eq_error, error_bind, pure_eq_ok, ok_bind, isOkE]
      · simp only [Bool.not_eq_true] at m2
        simp [set_liquidity_pair, ensure_admin, hrefl, hq, h1, m1, m2,
          throw_eq_error, error_bind, pure_eq_ok, ok_bind, isOkE]
    · simp only [Bool.not_eq_true] at m1
      simp [set_liquidity_pair, ensure_admin, hrefl, hq, h1, m1,
        throw_eq_error, error_bind, pure_eq_ok, ok_bind, isOkE]
  · simp [set_liquidity_pair, ensure_admin, hrefl, hq, h1,
      throw_eq_error, error_bind, pure_eq_ok, ok_bind, isOkE]

/-- Witness for C7 (amended): the counterexample inputs satisfy the
right-hand side, so the binding succeeds. -/
theorem c7_liquidity_pair_validation_witness :
    ("tadmin" = unboundTreasury.admin ∧
     unboundTreasury.reflection_pair = none ∧
     poolQuery "pool" = some { asset_infos := (AssetInfo.token "ft",
        AssetInfo.nativeToken "uinj"), liquidity_token := "lp" }) ∧
    (isOkE (set_liquidity_pair poolQuery unboundTreasury "tadmin"
        (AssetInfo.nativeToken "uinj", AssetInfo.token "ft") "pool") = true ↔
      ((∃ ca, ({ asset_infos := (AssetInfo.token "ft", AssetInfo.nativeToken "uinj"),
                 liquidity_token := "lp" } : PairInfo).asset_infos.1
            = AssetInfo.token ca) ∧
       assetMem (AssetInfo.token "ft", AssetInfo.nativeToken "uinj")
         (AssetInfo.nativeToken "uinj") = true ∧
       assetMem (AssetInfo.token "ft", AssetInfo.nativeToken "uinj")
         (AssetInfo.token "ft") = true)) :=
  ⟨⟨by decide, by decide, by decide⟩,
   c7_liquidity_pair_validation poolQuery unboundTreasury "tadmin"
     (AssetInfo.nativeToken "uinj", AssetInfo.token "ft") "pool"
     { asset_infos := (AssetInfo.token "ft", AssetInfo.nativeToken "uinj"),
       liquidity_token := "lp" }
     (by decide) (by decide) (by decide)⟩

end Cw20Reflection
